import Mathlib

/-!
# Verification of the sentiment-analysis prediction/caching/drift pipeline

Shallow embedding of the core logic of the `ai-mlops` backend:

* `MLService.predict` / `predictCore`  — `app/services/ml_service.py`, lines 82-121
* `MLService.preprocess_text`          — `app/services/ml_service.py`, lines 74-80
* `MLService.load_models`              — `app/services/ml_service.py`, lines 24-67
* `CacheService.get/set/delete`        — `app/core/cache.py`, lines 36-73
* `predict_sentiment` (router flow)    — `app/routers/predictions.py`, lines 40-129
* `predict_batch` (router flow)        — `app/routers/predictions.py`, lines 135-189
* `sanitize_text`                      — `app/core/validators.py`, lines 10-37
* request validators                   — `app/models/schemas.py`, lines 19-38
* `DriftService.detect_drift`          — `app/services/drift_service.py`, lines 72-139
* `check_drift_and_retrain`            — `app/services/scheduler.py`, lines 19-54

Probabilities are embedded as `ℚ`; external effects (the sklearn model, the
Redis connection, joblib file loads, database writes) are parameters of the
embedded functions, so that the theorems quantify over every behaviour of
those collaborators observed by this code.
-/

set_option maxRecDepth 4000

/-- Python whitespace characters relevant to `str.strip` / `str.split`
(ASCII subset: space, tab, newline, carriage return, vertical tab, form feed). -/
def isPySpace (c : Char) : Bool :=
  c = ' ' || c = '\t' || c = '\n' || c = '\x0d' || c = '\x0b' || c = '\x0c'

/-- Python `str.strip()` on a character list. -/
def pyStripList (l : List Char) : List Char :=
  ((l.dropWhile isPySpace).reverse.dropWhile isPySpace).reverse

/-- Python `str.strip()`. -/
def pyStrip (s : String) : String :=
  ⟨pyStripList s.data⟩

/-- Python `str.split()` (split on whitespace runs, dropping empty pieces),
accumulator-style. -/
def pySplitAux : List Char → List Char → List (List Char)
  | [], acc => if acc.isEmpty then [] else [acc.reverse]
  | c :: cs, acc =>
    if isPySpace c then
      if acc.isEmpty then pySplitAux cs [] else acc.reverse :: pySplitAux cs []
    else pySplitAux cs (c :: acc)

/-- Python `str.split()`. -/
def pySplit (s : String) : List (List Char) :=
  pySplitAux s.data []

namespace MLService

/-- `MLService.preprocess_text`: `text.strip()` followed by
`' '.join(text.split())`. -/
def preprocess_text (text : String) : String :=
  let stripped : String := pyStrip text
  ⟨List.intercalate [' '] (pySplit stripped)⟩

end MLService

/-- The loaded sklearn artifacts as observed by `MLService.predict`: the
composition of `self.vectorizer.transform` with `self.model.predict`
(`predictClass`, the first element of the returned array) and with
`self.model.predict_proba` (`predictProba`, the pair
`(probabilities[0], probabilities[1])`). -/
structure Model where
  predictClass : String → ℕ
  predictProba : String → ℚ × ℚ

/-- Result record of `MLService.predict` (the returned tuple, without the
wall-clock `processing_time_ms`). -/
structure PredictResult where
  sentiment : String
  confidence : ℚ
  positive_score : ℚ
  negative_score : ℚ
  neutral_score : ℚ
  deriving DecidableEq, Repr

/-- Python `max(a, b)`: keeps the first argument on ties. -/
def pymax (a b : ℚ) : ℚ :=
  if a < b then b else a

/-- The fixed neutral threshold `neutral_threshold = 0.6` of
`MLService.predict`. -/
def neutral_threshold : ℚ := 6 / 10

/-- Lines 101-121 of `ml_service.py`: from the model outputs
`prediction = model.predict(v)[0]` and
`[negative, positive] = model.predict_proba(v)[0]`, derive the sentiment
label and the scores. -/
def predictCore (prediction : ℕ) (prob0 prob1 : ℚ) : PredictResult :=
  let negative_score := prob0
  let positive_score := prob1
  let confidence := pymax positive_score negative_score
  if confidence < neutral_threshold then
    { sentiment := "neutral", confidence := confidence,
      positive_score := positive_score, negative_score := negative_score,
      neutral_score := 1 - confidence }
  else
    { sentiment := if prediction = 1 then "positive" else "negative",
      confidence := confidence,
      positive_score := positive_score, negative_score := negative_score,
      neutral_score := 0 }

namespace MLService

/-- `MLService.predict`: raise `RuntimeError("Models not loaded")` unless
`is_loaded`; otherwise preprocess the text, vectorize, and apply
`predictCore` to the model outputs.  `loaded` stands for `self.is_loaded`. -/
def predict (loaded : Bool) (m : Model) (text : String) :
    Except String PredictResult :=
  if ¬ loaded then .error "Models not loaded"
  else
    let processed := preprocess_text text
    .ok (predictCore (m.predictClass processed)
          (m.predictProba processed).1 (m.predictProba processed).2)

end MLService

/-- A model whose outputs do not depend on the input text; used to exhibit
concrete classifier behaviours. -/
def constModel (pred : ℕ) (p0 p1 : ℚ) : Model :=
  { predictClass := fun _ => pred, predictProba := fun _ => (p0, p1) }

example : MLService.preprocess_text "  a   b " = "a b" := by decide

lemma predict_true_eq (m : Model) (t : String) :
    MLService.predict true m t =
      .ok (predictCore (m.predictClass (MLService.preprocess_text t))
        (m.predictProba (MLService.preprocess_text t)).1
        (m.predictProba (MLService.preprocess_text t)).2) := by
  simp [MLService.predict]

lemma predictCore_of_lt (pred : ℕ) (p0 p1 : ℚ)
    (h : pymax p1 p0 < neutral_threshold) :
    predictCore pred p0 p1 = ⟨"neutral", pymax p1 p0, p1, p0, 1 - pymax p1 p0⟩ := by
  simp [predictCore, h]

lemma predictCore_of_ge (pred : ℕ) (p0 p1 : ℚ)
    (h : ¬ pymax p1 p0 < neutral_threshold) :
    predictCore pred p0 p1 =
      ⟨if pred = 1 then "positive" else "negative", pymax p1 p0, p1, p0, 0⟩ := by
  simp [predictCore, h]

lemma predictCore_confidence (pred : ℕ) (p0 p1 : ℚ) :
    (predictCore pred p0 p1).confidence = pymax p1 p0 := by
  by_cases h : pymax p1 p0 < neutral_threshold
  · rw [predictCore_of_lt pred p0 p1 h]
  · rw [predictCore_of_ge pred p0 p1 h]

lemma predictCore_positive (pred : ℕ) (p0 p1 : ℚ) :
    (predictCore pred p0 p1).positive_score = p1 := by
  by_cases h : pymax p1 p0 < neutral_threshold
  · rw [predictCore_of_lt pred p0 p1 h]
  · rw [predictCore_of_ge pred p0 p1 h]

lemma predictCore_negative (pred : ℕ) (p0 p1 : ℚ) :
    (predictCore pred p0 p1).negative_score = p0 := by
  by_cases h : pymax p1 p0 < neutral_threshold
  · rw [predictCore_of_lt pred p0 p1 h]
  · rw [predictCore_of_ge pred p0 p1 h]

lemma predictCore_sentiment_of_ge (pred : ℕ) (p0 p1 : ℚ)
    (h : ¬ pymax p1 p0 < neutral_threshold) :
    (predictCore pred p0 p1).sentiment =
      if pred = 1 then "positive" else "negative" := by
  rw [predictCore_of_ge pred p0 p1 h]

lemma predictCore_neutral_of_lt (pred : ℕ) (p0 p1 : ℚ)
    (h : pymax p1 p0 < neutral_threshold) :
    (predictCore pred p0 p1).neutral_score = 1 - pymax p1 p0 := by
  rw [predictCore_of_lt pred p0 p1 h]

lemma predictCore_neutral_of_ge (pred : ℕ) (p0 p1 : ℚ)
    (h : ¬ pymax p1 p0 < neutral_threshold) :
    (predictCore pred p0 p1).neutral_score = 0 := by
  rw [predictCore_of_ge pred p0 p1 h]

/-- C1: for every prediction on a loaded model, with confidence
`max(positive_score, negative_score)`: if `confidence < 0.6` the label is
`"neutral"` and `neutral_score = 1 - confidence`; otherwise
`neutral_score = 0`.  The threshold is the fixed constant
`neutral_threshold = 0.6`. -/
theorem C1_neutral_band (m : Model) (t : String) (r : PredictResult)
    (h : MLService.predict true m t = .ok r) :
    r.confidence = pymax r.positive_score r.negative_score ∧
    (r.confidence < 6/10 → r.sentiment = "neutral" ∧ r.neutral_score = 1 - r.confidence) ∧
    (¬ r.confidence < 6/10 → r.neutral_score = 0) ∧
    neutral_threshold = 6/10 := by
  rw [predict_true_eq, Except.ok.injEq] at h
  subst h
  set pc := m.predictClass (MLService.preprocess_text t)
  set p0 := (m.predictProba (MLService.preprocess_text t)).1
  set p1 := (m.predictProba (MLService.preprocess_text t)).2
  have hth : neutral_threshold = 6/10 := rfl
  by_cases hlt : pymax p1 p0 < neutral_threshold
  · rw [predictCore_of_lt pc p0 p1 hlt]
    refine ⟨rfl, fun _ => ⟨rfl, rfl⟩, fun hc => absurd ?_ hc, hth⟩
    rw [← hth]; exact hlt
  · rw [predictCore_of_ge pc p0 p1 hlt]
    refine ⟨rfl, fun hc => absurd ?_ hlt, fun _ => rfl, hth⟩
    rw [hth]; exact hc

/-- Witness for C1 at a concrete low-confidence classifier output. -/
theorem C1_neutral_band_witness :
    MLService.predict true (constModel 0 (52/100) (48/100)) "meh" =
      .ok (predictCore 0 (52/100) (48/100)) ∧
    (predictCore 0 (52/100) (48/100)).confidence =
      pymax (predictCore 0 (52/100) (48/100)).positive_score
        (predictCore 0 (52/100) (48/100)).negative_score ∧
    (predictCore 0 (52/100) (48/100)).sentiment = "neutral" ∧
    (predictCore 0 (52/100) (48/100)).neutral_score =
      1 - (predictCore 0 (52/100) (48/100)).confidence ∧
    neutral_threshold = 6/10 := by
  have h := C1_neutral_band (constModel 0 (52/100) (48/100)) "meh" _
    (predict_true_eq (constModel 0 (52/100) (48/100)) "meh")
  have hc : (predictCore 0 (52/100) (48/100)).confidence < 6/10 := by
    rw [predictCore_confidence]
    norm_num [pymax]
  exact ⟨predict_true_eq (constModel 0 (52/100) (48/100)) "meh", h.1,
    (h.2.1 hc).1, (h.2.1 hc).2, h.2.2.2⟩

/-- C4 counterexample: the label is computed from `model.predict`, not from
the probabilities.  A classifier output of class `0` with probabilities
`[0.3, 0.7]` (possible, e.g., for sklearn `SVC`, whose `predict` is not
guaranteed to agree with the argmax of `predict_proba`) has
`confidence = 0.7 ≥ 0.6` and `positive_score > negative_score`, yet the
returned label is `"negative"`. -/
theorem C4_counterexample :
    MLService.predict true (constModel 0 (3/10) (7/10)) "text" =
      .ok (predictCore 0 (3/10) (7/10)) ∧
    6/10 ≤ (predictCore 0 (3/10) (7/10)).confidence ∧
    (predictCore 0 (3/10) (7/10)).negative_score <
      (predictCore 0 (3/10) (7/10)).positive_score ∧
    (predictCore 0 (3/10) (7/10)).sentiment = "negative" := by
  refine ⟨predict_true_eq _ _, ?_, ?_, ?_⟩ <;>
    norm_num [predictCore, pymax, neutral_threshold]

/-- C4 amended: when `confidence ≥ 0.6`, the label is `"positive"` iff the
classifier predicted class `1`; under the additional hypothesis that the
predicted class is `1` exactly when `positive_score > negative_score`
(true when `predict` is the argmax of `predict_proba`), the label is
`"positive"` iff `positive_score > negative_score`, and `"negative"`
otherwise. -/
theorem C4_amended (pred : ℕ) (p0 p1 : ℚ)
    (hlink : pred = 1 ↔ p0 < p1)
    (hconf : 6/10 ≤ (predictCore pred p0 p1).confidence) :
    ((predictCore pred p0 p1).sentiment = "positive" ↔
      (predictCore pred p0 p1).negative_score <
        (predictCore pred p0 p1).positive_score) ∧
    ((predictCore pred p0 p1).sentiment = "positive" ∨
      (predictCore pred p0 p1).sentiment = "negative") := by
  rw [predictCore_confidence] at hconf
  have hge : ¬ pymax p1 p0 < neutral_threshold := by
    rw [not_lt]
    calc neutral_threshold = 6/10 := rfl
      _ ≤ pymax p1 p0 := hconf
  rw [predictCore_sentiment_of_ge pred p0 p1 hge, predictCore_positive,
    predictCore_negative]
  by_cases hp : pred = 1
  · rw [if_pos hp]
    exact ⟨⟨fun _ => hlink.mp hp, fun _ => rfl⟩, Or.inl rfl⟩
  · rw [if_neg hp]
    exact ⟨⟨fun hps => absurd hps (by decide),
      fun hlt => absurd (hlink.mpr hlt) hp⟩, Or.inr rfl⟩

/-- Witness for C4 amended at an argmax-consistent classifier output. -/
theorem C4_amended_witness :
    ((1 : ℕ) = 1 ↔ (3/10 : ℚ) < 7/10) ∧
    (6/10 ≤ (predictCore 1 (3/10) (7/10)).confidence) ∧
    (((predictCore 1 (3/10) (7/10)).sentiment = "positive" ↔
      (predictCore 1 (3/10) (7/10)).negative_score <
        (predictCore 1 (3/10) (7/10)).positive_score) ∧
    ((predictCore 1 (3/10) (7/10)).sentiment = "positive" ∨
      (predictCore 1 (3/10) (7/10)).sentiment = "negative")) :=
  ⟨by norm_num, by norm_num [predictCore, pymax, neutral_threshold],
   C4_amended 1 (3/10) (7/10) (by norm_num)
     (by norm_num [predictCore, pymax, neutral_threshold])⟩

/-- C7: if the classifier's two-class probabilities sum to 1, then
`positive_score + negative_score = 1`; `neutral_score` is derived from
confidence (`1 - confidence` below the threshold, else `0`) and is nonzero
exactly when `confidence < 0.6`. -/
theorem C7_score_sum (m : Model) (t : String) (r : PredictResult)
    (h : MLService.predict true m t = .ok r)
    (hsum : (m.predictProba (MLService.preprocess_text t)).1 +
      (m.predictProba (MLService.preprocess_text t)).2 = 1) :
    r.positive_score + r.negative_score = 1 ∧
    (r.neutral_score ≠ 0 ↔ r.confidence < 6/10) ∧
    r.neutral_score = (if r.confidence < 6/10 then 1 - r.confidence else 0) := by
  rw [predict_true_eq, Except.ok.injEq] at h
  subst h
  set pc := m.predictClass (MLService.preprocess_text t)
  set p0 := (m.predictProba (MLService.preprocess_text t)).1
  set p1 := (m.predictProba (MLService.preprocess_text t)).2
  have hth : neutral_threshold = 6/10 := rfl
  rw [predictCore_positive, predictCore_negative, predictCore_confidence]
  by_cases hlt : pymax p1 p0 < neutral_threshold
  · have hlt6 : pymax p1 p0 < 6/10 := by rw [← hth]; exact hlt
    rw [predictCore_neutral_of_lt pc p0 p1 hlt]
    have hne : (1 : ℚ) - pymax p1 p0 ≠ 0 := by
      have h1 : pymax p1 p0 < 1 := lt_trans hlt6 (by norm_num)
      intro hz
      have : pymax p1 p0 = 1 := by linarith
      exact absurd this (ne_of_lt h1)
    refine ⟨by rw [add_comm] at hsum; exact hsum, ⟨fun _ => hlt6, fun _ => hne⟩, ?_⟩
    rw [if_pos hlt6]
  · have hge6 : ¬ pymax p1 p0 < 6/10 := by rw [← hth]; exact hlt
    rw [predictCore_neutral_of_ge pc p0 p1 hlt]
    refine ⟨by rw [add_comm] at hsum; exact hsum,
      ⟨fun hz => absurd rfl hz, fun hc => absurd hc hge6⟩, ?_⟩
    rw [if_neg hge6]

/-- Witness for C7 at a concrete classifier output with probabilities
summing to 1. -/
theorem C7_score_sum_witness :
    MLService.predict true (constModel 1 (2/5) (3/5)) "ok" =
      .ok (predictCore 1 (2/5) (3/5)) ∧
    ((2/5 : ℚ) + 3/5 = 1) ∧
    ((predictCore 1 (2/5) (3/5)).positive_score +
        (predictCore 1 (2/5) (3/5)).negative_score = 1 ∧
      ((predictCore 1 (2/5) (3/5)).neutral_score ≠ 0 ↔
        (predictCore 1 (2/5) (3/5)).confidence < 6/10) ∧
      (predictCore 1 (2/5) (3/5)).neutral_score =
        (if (predictCore 1 (2/5) (3/5)).confidence < 6/10
         then 1 - (predictCore 1 (2/5) (3/5)).confidence else 0)) :=
  ⟨predict_true_eq (constModel 1 (2/5) (3/5)) "ok", by norm_num,
   C7_score_sum (constModel 1 (2/5) (3/5)) "ok" _
     (predict_true_eq (constModel 1 (2/5) (3/5)) "ok") (by norm_num [constModel])⟩

/-! ## Input sanitization (`app/core/validators.py`, `sanitize_text`) -/

/-- The control characters removed by the regex
`[\x00-\x08\x0B\x0C\x0E-\x1F\x7F-\x9F]` in `sanitize_text`. -/
def isCtrlRemoved (c : Char) : Bool :=
  (c.toNat ≤ 0x08) || c.toNat = 0x0B || c.toNat = 0x0C ||
  (0x0E ≤ c.toNat && c.toNat ≤ 0x1F) || (0x7F ≤ c.toNat && c.toNat ≤ 0x9F)

/-- Space or tab, the character class of the regex `[ \t]+`. -/
def isSpTab (c : Char) : Bool := c = ' ' || c = '\t'

/-- `re.sub(r'[ \t]+', ' ', text)`: each maximal run of spaces/tabs becomes a
single space.  The flag records whether the previous character was in a run. -/
def collapseSpTabAux : Bool → List Char → List Char
  | _, [] => []
  | prevRun, c :: cs =>
    if isSpTab c then
      if prevRun then collapseSpTabAux true cs
      else ' ' :: collapseSpTabAux true cs
    else c :: collapseSpTabAux false cs

def collapseSpTab (l : List Char) : List Char := collapseSpTabAux false l

/-- `re.sub(r'\n{3,}', '\n\n', text)`: a run of `n` newlines keeps
`min n 2` newlines (runs of 1 or 2 are untouched; longer runs become 2).
The counter is the number of newlines already emitted-or-seen in the
current run. -/
def collapseNlAux : ℕ → List Char → List Char
  | _, [] => []
  | k, c :: cs =>
    if c = '\n' then
      if k < 2 then '\n' :: collapseNlAux (k + 1) cs else collapseNlAux (k + 1) cs
    else c :: collapseNlAux 0 cs

def collapseNl (l : List Char) : List Char := collapseNlAux 0 l

/-- `sanitize_text(text, max_length=5000)` from `app/core/validators.py`.
The external call `bleach.clean(text, tags=[], strip=True)` (strip all HTML
tags) is the parameter `clean`.  Steps, in source order: empty short-circuit,
HTML stripping, truncation to `max_length`, control-character removal,
space/tab collapsing, newline-run capping, final `strip()`. -/
def sanitize_text (clean : String → String) (max_length : ℕ) (text : String) : String :=
  if text = "" then ""
  else
    let t1 := clean text
    let t2 := t1.data.take max_length
    let t3 := t2.filter (fun c => !(isCtrlRemoved c))
    let t4 := collapseSpTab t3
    let t5 := collapseNl t4
    pyStrip ⟨t5⟩

/-- A concrete HTML-tag stripper: drops everything between `<` and the next
`>`.  Used only to instantiate the external `bleach.clean(tags=[], strip=True)`
parameter on inputs whose angle brackets all form well-formed tags (on such
inputs bleach's documented behaviour is exactly tag removal). -/
def stripTagsAux : Bool → List Char → List Char
  | _, [] => []
  | inTag, c :: cs =>
    if inTag then
      (if c = '>' then stripTagsAux false cs else stripTagsAux true cs)
    else if c = '<' then stripTagsAux true cs
    else c :: stripTagsAux false cs

def stripTags (s : String) : String := ⟨stripTagsAux false s.data⟩

example : stripTags "<b>Great!</b>" = "Great!" := by decide
example : stripTags "<br/>" = "" := by decide
example : sanitize_text stripTags 5000 "<b>Great!</b>" = "Great!" := by decide

/-! ## Cache (`app/core/cache.py`) and the single-prediction flow
(`app/routers/predictions.py`, `predict_sentiment`) -/

namespace CacheService

/-- `CacheService.get`: returns `None` when disabled or no client; otherwise
performs `await self._redis.get(key)` (its outcome is `backing`: `.error` is a
raised exception) and `json.loads` (`parse`; `none` is a raised exception,
both caught by the `except` block).  Python's `if value:` is falsy for `None`
and for the empty string. -/
def get {α : Type} (enabled hasConn : Bool) (backing : Except String (Option String))
    (parse : String → Option α) : Option α :=
  if ¬ (enabled && hasConn) then none
  else
    match backing with
    | .error _ => none
    | .ok none => none
    | .ok (some v) => if v = "" then none else parse v

/-- `CacheService.set`: `dump` is the outcome of `json.dumps(value)` (`none`
is a raised exception); `backing` is the outcome of
`await self._redis.set(key, json_value, ex=expire)`.  Any raised error is
caught and reported as `false`. -/
def set (enabled hasConn : Bool) (dump : Option String)
    (backing : String → Except String Unit) : Bool :=
  if ¬ (enabled && hasConn) then false
  else
    match dump with
    | none => false
    | some s =>
      match backing s with
      | .ok _ => true
      | .error _ => false

/-- `CacheService.delete`: `backing` is the outcome of
`await self._redis.delete(key)`; a raised error is caught and reported as
`false`. -/
def delete (enabled hasConn : Bool) (backing : Except String Unit) : Bool :=
  if ¬ (enabled && hasConn) then false
  else
    match backing with
    | .ok _ => true
    | .error _ => false

end CacheService

/-- The cache key built in `predict_sentiment`:
`f"prediction:{hashlib.md5(clean_text.encode()).hexdigest()}:{ml.model_version}"`.
The external md5 hex digest is the parameter `md5hex`. -/
def cache_key (md5hex : String → String) (clean_text model_version : String) : String :=
  "prediction:" ++ md5hex clean_text ++ ":" ++ model_version

/-- Observable outcome of the `predict_sentiment` route: a cache hit returns
the cached response, a miss returns the freshly classified-and-stored result,
errors become HTTP error responses. -/
inductive FlowOutcome (V : Type) where
  | cached (v : V)
  | fresh (id : ℕ) (r : PredictResult)
  | httpError (code : ℕ) (msg : String)
  deriving DecidableEq

/-- Whether a flow outcome was served from the cache. -/
def isCacheHit {V : Type} : FlowOutcome V → Bool
  | .cached _ => true
  | _ => false

/-- The `predict_sentiment` route (`app/routers/predictions.py` lines 40-129):
503 when the model is not loaded; sanitize; if the cache is enabled, look up
`cache_key` and return a hit; otherwise classify, persist
(`create_prediction`, `.error` = raised exception), and return the response.
Any exception in the `try` block becomes a 500.  The trailing `cache.set` is
fire-and-forget and does not affect the response. -/
def predict_sentiment {V : Type} (loaded : Bool) (m : Model) (clean : String → String)
    (cacheEnabled hasConn : Bool)
    (redisGet : String → Except String (Option String)) (parse : String → Option V)
    (md5hex : String → String) (model_version : String)
    (create_prediction : String → PredictResult → Except String ℕ)
    (raw : String) : FlowOutcome V :=
  if ¬ loaded then
    .httpError 503 "ML model not loaded. Please ensure model is trained and available."
  else
    let clean_text := sanitize_text clean 5000 raw
    let key := cache_key md5hex clean_text model_version
    let cachedResult : Option V :=
      if cacheEnabled then CacheService.get cacheEnabled hasConn (redisGet key) parse
      else none
    match cachedResult with
    | some v => .cached v
    | none =>
      match MLService.predict loaded m clean_text with
      | .error e => .httpError 500 ("Prediction failed: " ++ e)
      | .ok r =>
        match create_prediction clean_text r with
        | .error e => .httpError 500 ("Prediction failed: " ++ e)
        | .ok newId => .fresh newId r

lemma string_append_cancel_left (s a b : String) (h : s ++ a = s ++ b) : a = b := by
  have hd := congrArg String.data h
  simp only [String.data_append] at hd
  exact String.ext (List.append_cancel_left hd)

lemma cache_key_version_inj (md5hex : String → String) (t v1 v2 : String)
    (h : cache_key md5hex t v1 = cache_key md5hex t v2) : v1 = v2 :=
  string_append_cancel_left ("prediction:" ++ md5hex t ++ ":") v1 v2 h

lemma CacheService.get_isSome {α : Type} (enabled hasConn : Bool)
    (backing : Except String (Option String)) (parse : String → Option α)
    (h : (CacheService.get enabled hasConn backing parse).isSome = true) :
    ∃ s, backing = .ok (some s) := by
  unfold CacheService.get at h
  split at h
  · simp at h
  · split at h
    · simp at h
    · simp at h
    · exact ⟨_, rfl⟩

/-- C2: the cache key is a deterministic function of the sanitized text and
the loaded model version, distinct versions give distinct keys for the same
text, and a prediction served after a version bump never returns an entry
cached under the previous version: its lookup misses. -/
theorem C2_version_invalidation {V : Type} (md5hex : String → String)
    (t vOld vNew : String) (hv : vOld ≠ vNew)
    (m : Model) (clean : String → String) (hasConn : Bool)
    (parse : String → Option V)
    (redisGet : String → Except String (Option String))
    (hold : ∀ k s, redisGet k = .ok (some s) → k = cache_key md5hex t vOld)
    (create_prediction : String → PredictResult → Except String ℕ)
    (raw : String) (hraw : sanitize_text clean 5000 raw = t) :
    cache_key md5hex t vOld ≠ cache_key md5hex t vNew ∧
    isCacheHit (predict_sentiment true m clean true hasConn redisGet parse
      md5hex vNew create_prediction raw) = false := by
  have hkey : cache_key md5hex t vOld ≠ cache_key md5hex t vNew := by
    intro h
    exact hv (cache_key_version_inj md5hex t vOld vNew h)
  refine ⟨hkey, ?_⟩
  have hnone : CacheService.get true hasConn
      (redisGet (cache_key md5hex (sanitize_text clean 5000 raw) vNew)) parse = none := by
    by_cases hs : (CacheService.get true hasConn
        (redisGet (cache_key md5hex (sanitize_text clean 5000 raw) vNew)) parse).isSome = true
    · obtain ⟨s, hsv⟩ := CacheService.get_isSome _ _ _ _ hs
      have := hold _ _ hsv
      rw [hraw] at this
      exact absurd this.symm hkey
    · exact Option.not_isSome_iff_eq_none.mp hs
  unfold predict_sentiment
  simp only [Bool.not_true, not_false_eq_true, if_true, if_false, ite_true, ite_false,
    not_true_eq_false, hnone]
  rw [predict_true_eq]
  cases hcp : create_prediction (sanitize_text clean 5000 raw)
      (predictCore (m.predictClass (MLService.preprocess_text (sanitize_text clean 5000 raw)))
        (m.predictProba (MLService.preprocess_text (sanitize_text clean 5000 raw))).1
        (m.predictProba (MLService.preprocess_text (sanitize_text clean 5000 raw))).2) with
  | error e => simp [isCacheHit, hcp]
  | ok newId => simp [isCacheHit, hcp]

/-- Witness for C2 at a concrete cache state holding only the old-version
key. -/
theorem C2_version_invalidation_witness :
    cache_key (fun _ => "h") "good" "v1.0" ≠ cache_key (fun _ => "h") "good" "v2.0" ∧
    isCacheHit (predict_sentiment true (constModel 1 (1/10) (9/10)) stripTags true true
      (fun k => if k = cache_key (fun _ => "h") "good" "v1.0" then .ok (some "{}") else .ok none)
      (fun _ => (none : Option ℕ)) (fun _ => "h") "v2.0"
      (fun _ _ => .ok 1) "good") = false :=
  C2_version_invalidation (fun _ => "h") "good" "v1.0" "v2.0" (by decide)
    (constModel 1 (1/10) (9/10)) stripTags true (fun _ => (none : Option ℕ))
    (fun k => if k = cache_key (fun _ => "h") "good" "v1.0" then .ok (some "{}") else .ok none)
    (by
      intro k s hk
      by_cases h : k = cache_key (fun _ => "h") "good" "v1.0"
      · exact h
      · have hk2 : (if k = cache_key (fun _ => "h") "good" "v1.0"
            then (Except.ok (some "{}") : Except String (Option String))
            else .ok none) = .ok (some s) := hk
        rw [if_neg h] at hk2
        exact absurd hk2 (by simp))
    (fun _ _ => .ok 1) "good" (by decide)

/-- C8: every cache operation degrades to a no-op when the backing store
raises: `get` returns `none`, `set` and `delete` return `false`, and the
single-prediction flow with an always-erroring cache behaves exactly as with
the cache disabled — a prediction request never fails because of the cache. -/
theorem C8_cache_degrades {V : Type} (e : String) (parse : String → Option V)
    (dump : Option String) (m : Model) (clean : String → String)
    (hasConn hasConn2 : Bool)
    (redisGet2 : String → Except String (Option String))
    (md5hex : String → String) (model_version : String)
    (create_prediction : String → PredictResult → Except String ℕ)
    (raw : String) :
    CacheService.get true true (.error e) parse = none ∧
    CacheService.set true true dump (fun _ => .error e) = false ∧
    CacheService.delete true true (.error e) = false ∧
    predict_sentiment true m clean true hasConn (fun _ => .error e) parse
        md5hex model_version create_prediction raw =
      predict_sentiment true m clean false hasConn2 redisGet2 parse
        md5hex model_version create_prediction raw := by
  refine ⟨rfl, ?_, rfl, ?_⟩
  · unfold CacheService.set
    cases dump <;> simp
  · unfold predict_sentiment
    simp [CacheService.get]

/-! ## Model loading (`MLService.load_models`) and the drift scheduler -/

/-- The mutable artifact fields of `MLService`: `self.model`,
`self.vectorizer` and the `self._loaded` flag. -/
structure AdapterState (A B : Type) where
  model : Option A
  vectorizer : Option B
  loaded : Bool
  deriving DecidableEq, Repr

/-- `MLService.is_loaded`: `self._loaded and self.model is not None and
self.vectorizer is not None`. -/
def AdapterState.is_loaded {A B : Type} (st : AdapterState A B) : Bool :=
  st.loaded && st.model.isSome && st.vectorizer.isSome

/-- The candidate model paths of `load_models`, in priority order
(`settings.MODEL_PATH` first). -/
def model_paths (settingsModelPath : String) : List String :=
  [settingsModelPath, "ml/models/sentiment_v2.pkl", "sentiment_v1.pkl",
   "../sentiment_v1.pkl"]

/-- The candidate vectorizer paths of `load_models`, in priority order
(`settings.VECTORIZER_PATH` first). -/
def vectorizer_paths (settingsVectorizerPath : String) : List String :=
  [settingsVectorizerPath, "ml/models/vectorizer_v2.pkl", "vectorizer_v1.pkl",
   "../vectorizer_v1.pkl"]

/-- The `for path in paths: if os.path.exists(path): joblib.load(path); break`
loop for one artifact.  The filesystem is `fs`: `none` = `os.path.exists` is
false, `some (.ok a)` = the file exists and `joblib.load` returns `a`,
`some (.error e)` = the file exists and `joblib.load` raises.  Outcome:
`.ok none` = no candidate file exists (the loop falls through without
assigning), `.ok (some a)` = the first existing file was loaded, and
`.error e` = loading the first existing file raised, which aborts the
whole `load_models` body into its `except` handler. -/
def loadFirst {A : Type} (fs : String → Option (Except String A)) :
    List String → Except String (Option A)
  | [] => .ok none
  | p :: ps =>
    match fs p with
    | some (.ok a) => .ok (some a)
    | some (.error e) => .error e
    | none => loadFirst fs ps

/-- Whether an artifact loop found an existing file and loaded it. -/
def foundArtifact {A : Type} : Except String (Option A) → Bool
  | .ok (some _) => true
  | _ => false

namespace MLService

/-- `MLService.load_models` (lines 24-67): inside a `try`, run the model
loop and then the vectorizer loop, assigning each artifact in place as soon
as its file is found, then set
`self._loaded = model_loaded and vectorizer_loaded` and return it.  If a
`joblib.load` raises, the `except` handler returns `False` WITHOUT touching
`self._loaded` or any slot not yet assigned — assignments made before the
raise are kept, so a raise in the vectorizer loop keeps the freshly
assigned model together with the old `_loaded` flag. -/
def load_models {A B : Type} (fsModel : String → Option (Except String A))
    (fsVec : String → Option (Except String B))
    (mp vp : String) (st : AdapterState A B) : AdapterState A B × Bool :=
  match loadFirst fsModel (model_paths mp) with
  | .error _ => (st, false)
  | .ok mRes =>
    let st1 :=
      match mRes with
      | some a => { st with model := some a }
      | none => st
    match loadFirst fsVec (vectorizer_paths vp) with
    | .error _ => (st1, false)
    | .ok vRes =>
      let st2 :=
        match vRes with
        | some b => { st1 with vectorizer := some b }
        | none => st1
      let ok := mRes.isSome && vRes.isSome
      ({ st2 with loaded := ok }, ok)

end MLService

/-- Result dictionary of `DriftService.detect_drift`, restricted to the keys
every branch of the source sets and the scheduler reads (`status`,
`message` — empty on the success branch, which omits it — and
`drift_detected`). -/
structure DriftResult where
  status : String
  message : String
  drift_detected : Bool
  deriving DecidableEq, Repr

namespace DriftService

/-- `DriftService.detect_drift` (lines 72-139): `reference_data` is the
cached reference dataframe (`none` = missing), `current_data` the recent
production records, `lib` the outcome of the Evidently report run
(`.error` = raised exception).  Branches in source order: missing
reference/empty current → error result; fewer than 10 samples → skipped
result; otherwise the library result, with exceptions mapped to an error
result.  Every non-success branch has `drift_detected := false`. -/
def detect_drift {R P : Type} (reference_data : Option R) (current_data : List P)
    (lib : Except String (Bool × ℚ)) : DriftResult :=
  if reference_data.isNone || current_data.isEmpty then
    { status := "error", message := "Insufficient data for drift detection",
      drift_detected := false }
  else if current_data.length < 10 then
    { status := "skipped", message := "Not enough production data (min 10 samples)",
      drift_detected := false }
  else
    match lib with
    | .ok (dd, _share) => { status := "success", message := "", drift_detected := dd }
    | .error e => { status := "error", message := e, drift_detected := false }

end DriftService

/-- `check_drift_and_retrain` (`app/services/scheduler.py` lines 19-54):
if the drift result reports drift, invoke `ml.train.train_model`
(outcome `train`; `.error` = raised exception, caught by the task's
`except`) and on success reload the models; otherwise do nothing.  Returns
the resulting adapter state and the flags
`(training invoked, load_models invoked)`. -/
def check_drift_and_retrain {A B : Type} (dr : DriftResult) (train : Except String String)
    (fsModel : String → Option (Except String A)) (fsVec : String → Option (Except String B))
    (mp vp : String)
    (st : AdapterState A B) : AdapterState A B × Bool × Bool :=
  if dr.drift_detected then
    match train with
    | .error _ => (st, true, false)
    | .ok _version => ((MLService.load_models fsModel fsVec mp vp st).1, true, true)
  else (st, false, false)

/-- C3 counterexample, two concrete failing reloads from a fully loaded
adapter (`model = M0`, `vectorizer = V0`, `_loaded = True`).
First, the vectorizer file is missing: the reload returns `False`, yet
`self.model` was already replaced by the new artifact and `_loaded` is
cleared — the previous pair is neither active nor unchanged.
Second, the vectorizer file exists but `joblib.load` raises on it: the
`except` handler returns `False` without touching `_loaded`, so the adapter
stays active (`is_loaded = True`) on a torn new-model/old-vectorizer
pair. -/
theorem C3_counterexample :
    MLService.load_models
      (fun p => if p = "ml/models/sentiment_v2.pkl" then some (.ok "M1") else none)
      (fun _ => (none : Option (Except String String)))
      "ml/models/sentiment_v2.pkl" "ml/models/vectorizer_v2.pkl"
      ⟨some "M0", some "V0", true⟩ = (⟨some "M1", some "V0", false⟩, false) ∧
    MLService.load_models
      (fun p => if p = "ml/models/sentiment_v2.pkl" then some (.ok "M1") else none)
      (fun p => if p = "ml/models/vectorizer_v2.pkl"
        then some (.error "corrupt vectorizer file") else none)
      "ml/models/sentiment_v2.pkl" "ml/models/vectorizer_v2.pkl"
      ⟨some "M0", some "V0", true⟩ = (⟨some "M1", some "V0", true⟩, false) ∧
    (⟨some "M1", some "V0", true⟩ : AdapterState String String).is_loaded = true := by
  refine ⟨rfl, rfl, rfl⟩

/-- C3 amended: reload reports success iff both artifacts are found and
load without raising.  When no load raises, `_loaded` records exactly
whether both files were found — so a missing-file failure marks the
adapter not loaded — and an artifact with no file keeps its old value.
A raise while loading the model aborts with the whole state unchanged.
But a raise while loading the vectorizer aborts with `_loaded` and the
vectorizer untouched while the model slot may already hold the new
artifact: the previously loaded pair is not guaranteed to remain active
and unchanged, and a previously loaded adapter can stay active on a
mixed pair.  A failed drift-triggered retraining leaves the adapter state
unchanged and never invokes a reload. -/
theorem C3_amended {A B : Type} (fsModel : String → Option (Except String A))
    (fsVec : String → Option (Except String B))
    (mp vp : String) (st : AdapterState A B) :
    ((MLService.load_models fsModel fsVec mp vp st).2 = true ↔
      foundArtifact (loadFirst fsModel (model_paths mp)) = true ∧
      foundArtifact (loadFirst fsVec (vectorizer_paths vp)) = true) ∧
    (∀ (mRes : Option A) (vRes : Option B),
      loadFirst fsModel (model_paths mp) = .ok mRes →
      loadFirst fsVec (vectorizer_paths vp) = .ok vRes →
      (MLService.load_models fsModel fsVec mp vp st).1.loaded =
        (mRes.isSome && vRes.isSome) ∧
      (MLService.load_models fsModel fsVec mp vp st).2 =
        (mRes.isSome && vRes.isSome) ∧
      (mRes = none →
        (MLService.load_models fsModel fsVec mp vp st).1.model = st.model) ∧
      (vRes = none →
        (MLService.load_models fsModel fsVec mp vp st).1.vectorizer = st.vectorizer)) ∧
    (∀ e, loadFirst fsModel (model_paths mp) = .error e →
      MLService.load_models fsModel fsVec mp vp st = (st, false)) ∧
    (∀ e, loadFirst fsVec (vectorizer_paths vp) = .error e →
      (MLService.load_models fsModel fsVec mp vp st).1.loaded = st.loaded ∧
      (MLService.load_models fsModel fsVec mp vp st).1.vectorizer = st.vectorizer ∧
      (MLService.load_models fsModel fsVec mp vp st).2 = false) ∧
    (∀ (dr : DriftResult) (e : String),
      check_drift_and_retrain dr (.error e) fsModel fsVec mp vp st =
        (st, dr.drift_detected, false)) := by
  refine ⟨?_, ?_, ?_, ?_, ?_⟩
  · unfold MLService.load_models
    cases hm : loadFirst fsModel (model_paths mp) with
    | error e => simp [foundArtifact]
    | ok mRes =>
      cases hv : loadFirst fsVec (vectorizer_paths vp) with
      | error e => simp [foundArtifact]
      | ok vRes => cases mRes <;> cases vRes <;> simp [foundArtifact]
  · intro mRes vRes hm hv
    unfold MLService.load_models
    rw [hm, hv]
    refine ⟨rfl, rfl, ?_, ?_⟩
    · intro h; subst h; cases vRes <;> rfl
    · intro h; subst h; cases mRes <;> rfl
  · intro e hm
    unfold MLService.load_models
    rw [hm]
  · intro e hv
    unfold MLService.load_models
    cases hm : loadFirst fsModel (model_paths mp) with
    | error e2 => exact ⟨rfl, rfl, rfl⟩
    | ok mRes =>
      rw [hv]
      refine ⟨?_, ?_, ?_⟩ <;> cases mRes <;> rfl
  · intro dr e
    unfold check_drift_and_retrain
    cases hdd : dr.drift_detected <;> simp [hdd]

/-- Witness for C3 amended: a successful reload, the missing-vectorizer
failure, the raising-vectorizer failure, and a failed retraining, all at
concrete filesystems. -/
theorem C3_amended_witness :
    (MLService.load_models
      (fun p => if p = "ml/models/sentiment_v2.pkl" then some (.ok "M1") else none)
      (fun _ => (some (.ok "V1") : Option (Except String String)))
      "ml/models/sentiment_v2.pkl" "ml/models/vectorizer_v2.pkl"
      ⟨some "M0", some "V0", true⟩).2 = true ∧
    (MLService.load_models
      (fun p => if p = "ml/models/sentiment_v2.pkl" then some (.ok "M1") else none)
      (fun _ => (none : Option (Except String String)))
      "ml/models/sentiment_v2.pkl" "ml/models/vectorizer_v2.pkl"
      ⟨some "M0", some "V0", true⟩).1.loaded = false ∧
    (MLService.load_models
      (fun p => if p = "ml/models/sentiment_v2.pkl" then some (.ok "M1") else none)
      (fun _ => (none : Option (Except String String)))
      "ml/models/sentiment_v2.pkl" "ml/models/vectorizer_v2.pkl"
      ⟨some "M0", some "V0", true⟩).1.vectorizer = some "V0" ∧
    (MLService.load_models
      (fun p => if p = "ml/models/sentiment_v2.pkl" then some (.ok "M1") else none)
      (fun p => if p = "ml/models/vectorizer_v2.pkl"
        then some (.error "corrupt vectorizer file") else none)
      "ml/models/sentiment_v2.pkl" "ml/models/vectorizer_v2.pkl"
      ⟨some "M0", some "V0", true⟩).1.loaded = true ∧
    (MLService.load_models
      (fun p => if p = "ml/models/sentiment_v2.pkl" then some (.ok "M1") else none)
      (fun p => if p = "ml/models/vectorizer_v2.pkl"
        then some (.error "corrupt vectorizer file") else none)
      "ml/models/sentiment_v2.pkl" "ml/models/vectorizer_v2.pkl"
      ⟨some "M0", some "V0", true⟩).2 = false ∧
    check_drift_and_retrain ⟨"success", "", true⟩ (.error "training failed")
      (fun p => if p = "ml/models/sentiment_v2.pkl" then some (.ok "M1") else none)
      (fun _ => (none : Option (Except String String)))
      "ml/models/sentiment_v2.pkl" "ml/models/vectorizer_v2.pkl"
      ⟨some "M0", some "V0", true⟩ = (⟨some "M0", some "V0", true⟩, true, false) :=
  ⟨(C3_amended
      (fun p => if p = "ml/models/sentiment_v2.pkl" then some (.ok "M1") else none)
      (fun _ => (some (.ok "V1") : Option (Except String String)))
      "ml/models/sentiment_v2.pkl" "ml/models/vectorizer_v2.pkl"
      ⟨some "M0", some "V0", true⟩).1.mpr ⟨rfl, rfl⟩,
   ((C3_amended
      (fun p => if p = "ml/models/sentiment_v2.pkl" then some (.ok "M1") else none)
      (fun _ => (none : Option (Except String String)))
      "ml/models/sentiment_v2.pkl" "ml/models/vectorizer_v2.pkl"
      ⟨some "M0", some "V0", true⟩).2.1 (some "M1") none rfl rfl).1,
   ((C3_amended
      (fun p => if p = "ml/models/sentiment_v2.pkl" then some (.ok "M1") else none)
      (fun _ => (none : Option (Except String String)))
      "ml/models/sentiment_v2.pkl" "ml/models/vectorizer_v2.pkl"
      ⟨some "M0", some "V0", true⟩).2.1 (some "M1") none rfl rfl).2.2.2 rfl,
   ((C3_amended
      (fun p => if p = "ml/models/sentiment_v2.pkl" then some (.ok "M1") else none)
      (fun p => if p = "ml/models/vectorizer_v2.pkl"
        then some (.error "corrupt vectorizer file") else none)
      "ml/models/sentiment_v2.pkl" "ml/models/vectorizer_v2.pkl"
      ⟨some "M0", some "V0", true⟩).2.2.2.1 "corrupt vectorizer file" rfl).1,
   ((C3_amended
      (fun p => if p = "ml/models/sentiment_v2.pkl" then some (.ok "M1") else none)
      (fun p => if p = "ml/models/vectorizer_v2.pkl"
        then some (.error "corrupt vectorizer file") else none)
      "ml/models/sentiment_v2.pkl" "ml/models/vectorizer_v2.pkl"
      ⟨some "M0", some "V0", true⟩).2.2.2.1 "corrupt vectorizer file" rfl).2.2,
   (C3_amended (fun p => if p = "ml/models/sentiment_v2.pkl" then some (.ok "M1") else none)
      (fun _ => (none : Option (Except String String)))
      "ml/models/sentiment_v2.pkl" "ml/models/vectorizer_v2.pkl"
      ⟨some "M0", some "V0", true⟩).2.2.2.2 ⟨"success", "", true⟩ "training failed"⟩

/-- C5: when the drift monitor sees fewer than 10 recent prediction
records, the result reports insufficient data with
`drift_detected = false`, and the scheduled task neither invokes training
nor reloads the model. -/
theorem C5_insufficient_data {R P A B : Type} (reference_data : Option R)
    (current_data : List P) (lib : Except String (Bool × ℚ))
    (train : Except String String)
    (fsModel : String → Option (Except String A)) (fsVec : String → Option (Except String B))
    (mp vp : String) (st : AdapterState A B)
    (hlt : current_data.length < 10) :
    (DriftService.detect_drift reference_data current_data lib).drift_detected = false ∧
    ((DriftService.detect_drift reference_data current_data lib).message =
        "Insufficient data for drift detection" ∨
      (DriftService.detect_drift reference_data current_data lib).message =
        "Not enough production data (min 10 samples)") ∧
    check_drift_and_retrain (DriftService.detect_drift reference_data current_data lib)
      train fsModel fsVec mp vp st = (st, false, false) := by
  unfold DriftService.detect_drift
  by_cases h1 : (reference_data.isNone || current_data.isEmpty) = true
  · rw [if_pos h1]
    exact ⟨rfl, Or.inl rfl, by unfold check_drift_and_retrain; rfl⟩
  · rw [if_neg h1, if_pos hlt]
    exact ⟨rfl, Or.inr rfl, by unfold check_drift_and_retrain; rfl⟩

/-- Witness for C5 with 9 recent records. -/
theorem C5_insufficient_data_witness :
    (List.replicate 9 "text").length < 10 ∧
    ((DriftService.detect_drift (some ()) (List.replicate 9 "text")
        (.ok (true, 1))).drift_detected = false ∧
      ((DriftService.detect_drift (some ()) (List.replicate 9 "text")
          (.ok (true, 1))).message = "Insufficient data for drift detection" ∨
        (DriftService.detect_drift (some ()) (List.replicate 9 "text")
          (.ok (true, 1))).message = "Not enough production data (min 10 samples)") ∧
      check_drift_and_retrain
        (DriftService.detect_drift (some ()) (List.replicate 9 "text") (.ok (true, 1)))
        (.ok "v3") (fun _ => (some (.ok "M1") : Option (Except String String)))
        (fun _ => (some (.ok "V1") : Option (Except String String)))
        "ml/models/sentiment_v2.pkl" "ml/models/vectorizer_v2.pkl"
        ⟨some "M0", some "V0", true⟩ =
          (⟨some "M0", some "V0", true⟩, false, false)) :=
  ⟨by decide,
   C5_insufficient_data (some ()) (List.replicate 9 "text") (.ok (true, 1)) (.ok "v3")
     (fun _ => (some (.ok "M1") : Option (Except String String)))
     (fun _ => (some (.ok "V1") : Option (Except String String)))
     "ml/models/sentiment_v2.pkl" "ml/models/vectorizer_v2.pkl"
     ⟨some "M0", some "V0", true⟩ (by decide)⟩

/-! ## Batch prediction (`predict_batch` route) and request validators -/

/-- `Except.isOk` as a plain boolean. -/
def isOkExcept {E R : Type} : Except E R → Bool
  | .ok _ => true
  | .error _ => false

/-- The `texts_must_be_valid` validator of `BatchPredictionRequest`:
`[text.strip() for text in v if text.strip()]`. -/
def batch_texts_validator (texts : List String) : List String :=
  texts.filterMap (fun t => if pyStrip t = "" then none else some (pyStrip t))

/-- `PredictionRequest` validation: the `Field(min_length=1, max_length=5000)`
bounds, then `text_must_not_be_empty`, which rejects whitespace-only text and
returns `v.strip()`.  Note the emptiness check runs on the raw submitted
text, before any sanitization. -/
def prediction_request_validator (t : String) : Except String String :=
  if t.length < 1 || t.length > 5000 then .error "length constraint violated"
  else if pyStrip t = "" then .error "Text cannot be empty or whitespace only"
  else .ok (pyStrip t)

/-- The `for text in request.texts` loop of the batch route (lines 153-181):
`step` is one iteration's `ml.predict` plus `create_prediction`
(`.error` = any raised exception); a failing text is logged and skipped
(`continue`).  Each success appends to `results`; the pair records the
`text=text` argument passed to `create_prediction` together with the
response. -/
def predict_batch_loop {E R : Type} (step : String → Except E R) :
    List String → List (String × R)
  | [] => []
  | t :: ts =>
    match step t with
    | .ok r => (t, r) :: predict_batch_loop step ts
    | .error _ => predict_batch_loop step ts

/-- `BatchPredictionResponse` (without the wall-clock `total_time_ms`). -/
structure BatchResponse (R : Type) where
  results : List R
  total_processed : ℕ

/-- The `predict_batch` route (lines 135-189): 503 when the model is not
loaded, otherwise run the loop and return the collected results with
`total_processed = len(results)`. -/
def predict_batch {E R : Type} (loaded : Bool) (step : String → Except E R)
    (texts : List String) : Except String (BatchResponse (String × R)) :=
  if ¬ loaded then .error "ML model not loaded"
  else .ok { results := predict_batch_loop step texts,
             total_processed := (predict_batch_loop step texts).length }

/-- Specification-side description of the loop: the in-order successful
results. -/
def batch_successes {E R : Type} (step : String → Except E R) (ts : List String) :
    List (String × R) :=
  ts.filterMap (fun t => match step t with | .ok r => some (t, r) | .error _ => none)

lemma predict_batch_loop_eq_successes {E R : Type} (step : String → Except E R) :
    ∀ ts, predict_batch_loop step ts = batch_successes step ts := by
  intro ts
  induction ts with
  | nil => rfl
  | cons t ts ih =>
    unfold predict_batch_loop batch_successes
    cases h : step t <;> simp [h, ih, batch_successes]

lemma predict_batch_loop_map_fst {E R : Type} (step : String → Except E R) :
    ∀ ts, (predict_batch_loop step ts).map Prod.fst =
      ts.filter (fun t => isOkExcept (step t)) := by
  intro ts
  induction ts with
  | nil => rfl
  | cons t ts ih =>
    unfold predict_batch_loop
    cases h : step t <;> simp [h, ih, isOkExcept]

/-- C6: with a loaded model the batch route returns exactly the in-order
successful results with `total_processed` equal to their count, and a
failing text in the middle of the batch is skipped while everything before
and after it is still processed. -/
theorem C6_partial_failure {E R : Type} (step : String → Except E R)
    (texts l1 l2 : List String) (bad : String) (e : E)
    (hbad : step bad = .error e) :
    predict_batch true step texts =
      .ok { results := batch_successes step texts,
            total_processed := (batch_successes step texts).length } ∧
    batch_successes step (l1 ++ bad :: l2) =
      batch_successes step l1 ++ batch_successes step l2 := by
  constructor
  · unfold predict_batch
    rw [predict_batch_loop_eq_successes]
    rfl
  · unfold batch_successes
    rw [List.filterMap_append]
    simp [hbad]

/-- Witness for C6: a three-text batch whose middle text fails. -/
theorem C6_partial_failure_witness :
    (fun t => if t = "bad" then (.error () : Except Unit String) else .ok t) "bad" =
      .error () ∧
    (predict_batch true
        (fun t => if t = "bad" then (.error () : Except Unit String) else .ok t)
        ["a", "bad", "b"] =
      .ok { results := batch_successes
              (fun t => if t = "bad" then (.error () : Except Unit String) else .ok t)
              ["a", "bad", "b"],
            total_processed := (batch_successes
              (fun t => if t = "bad" then (.error () : Except Unit String) else .ok t)
              ["a", "bad", "b"]).length } ∧
      batch_successes
          (fun t => if t = "bad" then (.error () : Except Unit String) else .ok t)
          (["a"] ++ "bad" :: ["b"]) =
        batch_successes
          (fun t => if t = "bad" then (.error () : Except Unit String) else .ok t)
          ["a"] ++
        batch_successes
          (fun t => if t = "bad" then (.error () : Except Unit String) else .ok t)
          ["b"]) :=
  ⟨rfl, C6_partial_failure
    (fun t => if t = "bad" then (.error () : Except Unit String) else .ok t)
    ["a", "bad", "b"] ["a"] ["b"] "bad" () rfl⟩

/-- C9: the batch route applies only the validator's `strip()` to each
submitted text — `sanitize_text` is never called on the batch path — so the
text handed to the classifier and stored by `create_prediction` retains
HTML tags, unlike the single-prediction route, which sanitizes first:
on `"  <b>Great!</b>  "` the batch path classifies and stores
`"<b>Great!</b>"` (still containing `<`), while sanitization yields
`"Great!"`. -/
theorem C9_batch_skips_sanitizer {E R : Type} (step : String → Except E R)
    (ts : List String)
    (clean : String → String) (hclean : clean "<b>Great!</b>" = "Great!")
    (r : R) (hr : step "<b>Great!</b>" = .ok r) :
    batch_texts_validator ["  <b>Great!</b>  "] = ["<b>Great!</b>"] ∧
    predict_batch_loop step (batch_texts_validator ["  <b>Great!</b>  "]) =
      [("<b>Great!</b>", r)] ∧
    (predict_batch_loop step ts).map Prod.fst =
      ts.filter (fun t => isOkExcept (step t)) ∧
    sanitize_text clean 5000 "<b>Great!</b>" = "Great!" ∧
    ("<b>Great!</b>" : String).data.contains '<' = true ∧
    (sanitize_text clean 5000 "<b>Great!</b>").data.contains '<' = false := by
  have hval : batch_texts_validator ["  <b>Great!</b>  "] = ["<b>Great!</b>"] := by
    decide
  have hsan : sanitize_text clean 5000 "<b>Great!</b>" = "Great!" := by
    unfold sanitize_text
    rw [if_neg (by decide : ¬("<b>Great!</b>" : String) = "")]
    simp only [hclean]
    rfl
  refine ⟨hval, ?_, predict_batch_loop_map_fst step ts, hsan, by decide, ?_⟩
  · rw [hval]
    unfold predict_batch_loop
    rw [hr]
    rfl
  · rw [hsan]
    decide

/-- Witness for C9: the tag stripper instantiates the external
`bleach.clean` call and a step that classifies every text successfully. -/
theorem C9_batch_skips_sanitizer_witness :
    stripTags "<b>Great!</b>" = "Great!" ∧
    (fun t => (.ok t : Except Unit String)) "<b>Great!</b>" = .ok "<b>Great!</b>" ∧
    (batch_texts_validator ["  <b>Great!</b>  "] = ["<b>Great!</b>"] ∧
      predict_batch_loop (fun t => (.ok t : Except Unit String))
          (batch_texts_validator ["  <b>Great!</b>  "]) =
        [("<b>Great!</b>", "<b>Great!</b>")] ∧
      (predict_batch_loop (fun t => (.ok t : Except Unit String))
          ["<i>x</i>", "y"]).map Prod.fst =
        ["<i>x</i>", "y"].filter
          (fun t => isOkExcept ((fun t => (.ok t : Except Unit String)) t)) ∧
      sanitize_text stripTags 5000 "<b>Great!</b>" = "Great!" ∧
      ("<b>Great!</b>" : String).data.contains '<' = true ∧
      (sanitize_text stripTags 5000 "<b>Great!</b>").data.contains '<' = false) :=
  ⟨by decide, rfl,
   C9_batch_skips_sanitizer (fun t => (.ok t : Except Unit String))
     ["<i>x</i>", "y"] stripTags (by decide) "<b>Great!</b>" rfl⟩

/-- C10: for the input `"<br/>"` (non-empty, not whitespace-only) request
validation succeeds, sanitization yields the empty string, and the
single-prediction flow then classifies the empty string without any
rejection — the emptiness check only ever sees the raw text. -/
theorem C10_sanitized_empty_classified (clean : String → String)
    (hclean : clean "<br/>" = "") (m : Model)
    (create_prediction : String → PredictResult → Except String ℕ)
    (hdb : create_prediction ""
      (predictCore (m.predictClass "") (m.predictProba "").1 (m.predictProba "").2) =
        .ok 7) :
    prediction_request_validator "<br/>" = .ok "<br/>" ∧
    sanitize_text clean 5000 "<br/>" = "" ∧
    MLService.predict true m "" =
      .ok (predictCore (m.predictClass "") (m.predictProba "").1
        (m.predictProba "").2) ∧
    predict_sentiment true m clean false false (fun _ => .ok none)
        (fun _ => (none : Option Unit)) (fun _ => "") "v2.0" create_prediction
        "<br/>" =
      .fresh 7 (predictCore (m.predictClass "") (m.predictProba "").1
        (m.predictProba "").2) := by
  have hsan : sanitize_text clean 5000 "<br/>" = "" := by
    unfold sanitize_text
    rw [if_neg (by decide : ¬("<br/>" : String) = "")]
    simp only [hclean]
    rfl
  have hpp : MLService.preprocess_text "" = "" := by decide
  have hpred : MLService.predict true m "" =
      .ok (predictCore (m.predictClass "") (m.predictProba "").1
        (m.predictProba "").2) := by
    rw [predict_true_eq, hpp]
  refine ⟨rfl, hsan, hpred, ?_⟩
  unfold predict_sentiment
  simp only [hsan, Bool.not_true, not_false_eq_true, if_false, ite_false, ite_true,
    not_true_eq_false]
  rw [hpred]
  change (match create_prediction ""
      (predictCore (m.predictClass "") (m.predictProba "").1 (m.predictProba "").2) with
    | Except.error e => FlowOutcome.httpError 500 ("Prediction failed: " ++ e)
    | Except.ok newId => FlowOutcome.fresh newId
        (predictCore (m.predictClass "") (m.predictProba "").1 (m.predictProba "").2)) = _
  rw [hdb]

/-- Witness for C10: the tag stripper, a constant classifier and a
successful database write. -/
theorem C10_sanitized_empty_classified_witness :
    stripTags "<br/>" = "" ∧
    (fun (_ : String) (_ : PredictResult) => (.ok 7 : Except String ℕ)) ""
      (predictCore ((constModel 1 (1/2) (1/2)).predictClass "")
        ((constModel 1 (1/2) (1/2)).predictProba "").1
        ((constModel 1 (1/2) (1/2)).predictProba "").2) = .ok 7 ∧
    (prediction_request_validator "<br/>" = .ok "<br/>" ∧
      sanitize_text stripTags 5000 "<br/>" = "" ∧
      MLService.predict true (constModel 1 (1/2) (1/2)) "" =
        .ok (predictCore ((constModel 1 (1/2) (1/2)).predictClass "")
          ((constModel 1 (1/2) (1/2)).predictProba "").1
          ((constModel 1 (1/2) (1/2)).predictProba "").2) ∧
      predict_sentiment true (constModel 1 (1/2) (1/2)) stripTags false false
          (fun _ => .ok none) (fun _ => (none : Option Unit)) (fun _ => "") "v2.0"
          (fun _ _ => (.ok 7 : Except String ℕ)) "<br/>" =
        .fresh 7 (predictCore ((constModel 1 (1/2) (1/2)).predictClass "")
          ((constModel 1 (1/2) (1/2)).predictProba "").1
          ((constModel 1 (1/2) (1/2)).predictProba "").2)) :=
  ⟨by decide, rfl,
   C10_sanitized_empty_classified stripTags (by decide) (constModel 1 (1/2) (1/2))
     (fun _ _ => (.ok 7 : Except String ℕ)) rfl⟩
